import Mathlib

/-!
Shallow embedding of `src/main.py` (ALOH AWD Inventory Report pipeline).

The script fetches AWD and FBA inventory snapshots and an asynchronously
generated sales report from the Selling Partner API, merges the FBA summary
with the report's trailing-30-day shipped units on `sellerSku`, cleans the
frames, and uploads each frame to a Google Sheets worksheet with a bounded
retry loop.  Network effects are modelled by scripted response sequences;
sleeps are recorded rather than performed.
-/

namespace AwdReport

/-! ### Async report adapter: the poll loop (src/main.py lines 179-202)

The code repeatedly GETs the report status, reads `processingStatus`,
breaks with the `reportDocumentId` on "DONE", raises on "FATAL" or
"CANCELLED", and otherwise sleeps 10 seconds and polls again. -/

/-- One scripted JSON body of the report-status endpoint: the loop reads
`processingStatus` and, on DONE, `reportDocumentId` (lines 190-197). -/
structure StatusResponse where
  processingStatus : String
  reportDocumentId : String
deriving DecidableEq

/-- Observable outcome of the poll loop: `retrieve` means the loop broke out
with a document id and proceeds to document retrieval, `failed` means the
"Report failed" exception was raised, `running` means the scripted sequence
was exhausted with the loop still polling.  Each outcome records the number
of status polls issued and the list of sleep durations performed. -/
inductive PollOutcome where
  | retrieve (documentId : String) (polls : Nat) (sleeps : List Nat)
  | failed (polls : Nat) (sleeps : List Nat)
  | running (polls : Nat) (sleeps : List Nat)
deriving DecidableEq

/-- The `while True` poll loop of lines 179-202, consuming one scripted
status response per iteration and accumulating poll and sleep counts. -/
def pollLoop : List StatusResponse → Nat → List Nat → PollOutcome
  | [], polls, sleeps => .running polls sleeps
  | r :: rest, polls, sleeps =>
    if r.processingStatus = "DONE" then
      .retrieve r.reportDocumentId (polls + 1) sleeps
    else if r.processingStatus = "FATAL" ∨ r.processingStatus = "CANCELLED" then
      .failed (polls + 1) sleeps
    else
      pollLoop rest (polls + 1) (sleeps ++ [10])

/-- Entry point of the poll phase of `get_units_shipped_t30`. -/
def pollReportStatus (script : List StatusResponse) : PollOutcome :=
  pollLoop script 0 []

/-- Whether the loop reached one of its two exits (break on DONE, raise on
FATAL/CANCELLED), as opposed to still polling. -/
def terminated : PollOutcome → Bool
  | .running _ _ => false
  | _ => true

/-- The statuses the loop treats as terminal (lines 194 and 199). -/
def isTerminal (s : String) : Bool :=
  s = "DONE" || s = "FATAL" || s = "CANCELLED"

/-! ### Sink writer: upload_to_sheet (src/main.py lines 281-314)

`for attempt in range(MAX_GSPREAD_RETRIES)`: try open + batch_clear +
update; on APIError with response status 503, sleep `2 ** attempt` seconds
and retry; on any other APIError re-raise; after the loop, raise
"Upload failed". -/

def MAX_GSPREAD_RETRIES : Nat := 5

/-- One scripted behaviour of a whole upload attempt (open, clear, update):
either it succeeds, or it raises an APIError whose response carries the given
optional status code (the code reads it with
`getattr(e.response, "status_code", None)`). -/
inductive SinkResponse where
  | ok
  | apiError (statusCode : Option Nat)
deriving DecidableEq

/-- Observable outcome of `upload_to_sheet`: a successful return, a re-raised
APIError, or the final "Upload failed" exception after the loop.  Each
records the number of attempts made and the sleeps performed. -/
inductive UploadResult where
  | uploaded (attempts : Nat) (sleeps : List Nat)
  | raised (statusCode : Option Nat) (attempts : Nat) (sleeps : List Nat)
  | exhausted (attempts : Nat) (sleeps : List Nat)
deriving DecidableEq

/-- The retry loop of lines 285-314, with `fuel` the remaining iterations of
`range(MAX_GSPREAD_RETRIES)` and `attempt` the current index. -/
def uploadLoop (responses : Nat → SinkResponse) :
    Nat → Nat → List Nat → UploadResult
  | 0, attempt, sleeps => .exhausted attempt sleeps
  | fuel + 1, attempt, sleeps =>
    match responses attempt with
    | .ok => .uploaded (attempt + 1) sleeps
    | .apiError st =>
      if st = some 503 then
        uploadLoop responses fuel (attempt + 1) (sleeps ++ [2 ^ attempt])
      else
        .raised st (attempt + 1) sleeps

/-- `upload_to_sheet` run against a scripted sequence of attempt outcomes. -/
def upload_to_sheet (responses : Nat → SinkResponse) : UploadResult :=
  uploadLoop responses MAX_GSPREAD_RETRIES 0 []

/-- Number of attempts recorded in an upload outcome. -/
def attemptsOf : UploadResult → Nat
  | .uploaded a _ => a
  | .raised _ a _ => a
  | .exhausted a _ => a

/-! ### Document retrieval: decompression (src/main.py lines 215-224)

The downloaded bytes are wrapped in a BytesIO buffer and passed to
`gzip.GzipFile(fileobj=buffer)`, whose `read()` is then decoded as UTF-8.
The gzip library succeeds exactly on gzip-framed input and raises
BadGzipFile on input that lacks the gzip magic framing; the code applies it
unconditionally to every payload. -/

/-- A downloaded report document payload: either a gzip-framed compressed
body whose decompressed text is `text`, or plain uncompressed bytes of
`text`. -/
inductive DownloadPayload where
  | gzipFramed (text : String)
  | plain (text : String)
deriving DecidableEq

/-- The decode step of lines 219-222, modelled from the contract of the gzip
library the code calls: reading through GzipFile yields the decompressed
UTF-8 text of a gzip-framed payload and raises BadGzipFile on a payload
without gzip framing. -/
def gunzipDecode : DownloadPayload → Except String String
  | .gzipFramed t => .ok t
  | .plain _ => .error "BadGzipFile"

/-- The decode step as the spec describes it (spec 4.3 step 4): payloads MAY
be compressed, and the adapter transparently yields the text on both
framings.  Stated for comparison with `gunzipDecode`, which is what the code
does. -/
def transparentDecodeSpec : DownloadPayload → Except String String
  | .gzipFramed t => .ok t
  | .plain t => .ok t

/-! ### Normalizer: get_fba_inventory extraction (src/main.py lines 124-148)

For each item of `payload.inventorySummaries` the code builds a record via
`item.get("sellerSku", "")`, `item.get("asin", "")`,
`inventory.get("fulfillableQuantity", 0)` and the two reserved sub-counts,
where `inventory = item.get("inventoryDetails", {})` and
`reserved = inventory.get("reservedQuantity", {})`.  No value is parsed,
coerced or truncated: a present value is stored as-is; only an absent key
takes the default. -/

/-- JSON values as the extraction sees them. -/
inductive JsonValue where
  | null
  | num (n : Int)
  | str (s : String)
  | obj (fields : List (String × JsonValue))

/-- Python `dict.get(key, default)`: the stored value when the key is
present, the default otherwise. -/
def fieldOr (fields : List (String × JsonValue)) (key : String)
    (default : JsonValue) : JsonValue :=
  match fields.find? (fun p => p.1 == key) with
  | some p => p.2
  | none => default

/-- Calling `.get` on a non-dict value raises AttributeError in Python;
on a dict it succeeds.  This guards the two nested accesses. -/
def asObj : JsonValue → Except String (List (String × JsonValue))
  | .obj fields => .ok fields
  | _ => .error "AttributeError"

/-- The record appended for one inventory summary item (lines 129-142),
holding the raw values exactly as `dict.get` returned them. -/
structure RawFbaRecord where
  sellerSku : JsonValue
  asin : JsonValue
  inventorySupplyAtFBA : JsonValue
  reservedFcProcessing : JsonValue
  reservedCustomerOrder : JsonValue

/-- The per-item extraction of `get_fba_inventory` (lines 124-142). -/
def extractFbaRecord (item : List (String × JsonValue)) :
    Except String RawFbaRecord :=
  match asObj (fieldOr item "inventoryDetails" (.obj [])) with
  | .error e => .error e
  | .ok inventory =>
    match asObj (fieldOr inventory "reservedQuantity" (.obj [])) with
    | .error e => .error e
    | .ok reserved =>
      .ok ⟨fieldOr item "sellerSku" (.str ""),
           fieldOr item "asin" (.str ""),
           fieldOr inventory "fulfillableQuantity" (.num 0),
           fieldOr reserved "fcProcessingQuantity" (.num 0),
           fieldOr reserved "customerOrderQuantity" (.num 0)⟩

/-- Whether a JSON value is an integer. -/
def JsonValue.isInt : JsonValue → Bool
  | .num _ => true
  | _ => false

/-! ### Reconciler: the merge (src/main.py lines 259-265)

`df_fba.merge(df_units, on="sellerSku", how="left")` followed by
`df_fba["Units Shipped T30"].fillna(0)`.  A pandas left merge keeps one
output row per pair of matching rows and one row with NaN in the
right-side column for a left row with no match; right-only keys are
dropped. -/

/-- A row of `df_fba` as built by `get_fba_inventory` (numeric fields taken
at their intended integer type). -/
structure FbaRow where
  sellerSku : String
  asin : String
  inventorySupplyAtFBA : Int
  reservedFcProcessing : Int
  reservedCustomerOrder : Int
deriving DecidableEq

/-- A row of `df_units` as returned by `get_units_shipped_t30`. -/
structure UnitsRow where
  sellerSku : String
  unitsShippedT30 : Int
deriving DecidableEq

/-- A merged row before `fillna(0)`: the right-side column is `none` (NaN)
when the left row had no match. -/
structure MergedRow where
  sellerSku : String
  asin : String
  inventorySupplyAtFBA : Int
  reservedFcProcessing : Int
  reservedCustomerOrder : Int
  unitsShippedT30 : Option Int
deriving DecidableEq

/-- A merged row after `fillna(0)` on the Units Shipped T30 column. -/
structure FilledRow where
  sellerSku : String
  asin : String
  inventorySupplyAtFBA : Int
  reservedFcProcessing : Int
  reservedCustomerOrder : Int
  unitsShippedT30 : Int
deriving DecidableEq

/-- Combine one left row with an optional right-side value. -/
def mergeRow (l : FbaRow) (units : Option Int) : MergedRow :=
  ⟨l.sellerSku, l.asin, l.inventorySupplyAtFBA, l.reservedFcProcessing,
   l.reservedCustomerOrder, units⟩

/-- The output rows a pandas left merge produces for one left row: one row
per matching right row, or a single NaN-valued row when none matches. -/
def matchRows (l : FbaRow) (right : List UnitsRow) : List MergedRow :=
  match right.filter (fun r => r.sellerSku == l.sellerSku) with
  | [] => [mergeRow l none]
  | ms => ms.map (fun r => mergeRow l (some r.unitsShippedT30))

/-- `df_fba.merge(df_units, on="sellerSku", how="left")` (lines 259-263). -/
def leftMerge (left : List FbaRow) (right : List UnitsRow) : List MergedRow :=
  left.flatMap (fun l => matchRows l right)

/-- `fillna(0)` on the Units Shipped T30 column (line 265). -/
def fillnaRow (m : MergedRow) : FilledRow :=
  ⟨m.sellerSku, m.asin, m.inventorySupplyAtFBA, m.reservedFcProcessing,
   m.reservedCustomerOrder, m.unitsShippedT30.getD 0⟩

/-- The merge step of the pipeline: left merge then fillna(0). -/
def pipelineMerge (left : List FbaRow) (right : List UnitsRow) :
    List FilledRow :=
  (leftMerge left right).map fillnaRow

/-- The report's shipped-units value for a SKU: the first matching report
row's value, and 0 when the SKU does not occur in the report. -/
def lookupUnits (right : List UnitsRow) (sku : String) : Int :=
  match right.find? (fun r => r.sellerSku == sku) with
  | some r => r.unitsShippedT30
  | none => 0

/-! ### Clean step (src/main.py lines 274-276)

`df.replace([np.inf, -np.inf], "").fillna("")` applied cell-wise to each
frame before upload: infinities are replaced by the empty string, then
missing values (NaN) are filled with the empty string. -/

/-- A cell of a frame: a finite number, a string, or one of the non-finite
sentinels NaN, +inf, -inf. -/
inductive CellValue where
  | num (n : Int)
  | str (s : String)
  | nan
  | inf
  | neginf
deriving DecidableEq

/-- The cell-wise effect of `replace([np.inf, -np.inf], "").fillna("")`. -/
def cleanCell : CellValue → CellValue
  | .inf => .str ""
  | .neginf => .str ""
  | .nan => .str ""
  | v => v

/-- The clean step applied to a whole frame. -/
def cleanFrame (frame : List (List CellValue)) : List (List CellValue) :=
  frame.map (fun row => row.map cleanCell)

/-- Whether a cell is free of the non-finite sentinels. -/
def isFiniteCell : CellValue → Bool
  | .nan => false
  | .inf => false
  | .neginf => false
  | _ => true

/-! ### Sink writer: the successful clear-then-write pair
(src/main.py lines 289-297)

On a successful attempt the code runs `sheet.batch_clear(["A1:Z100000"])`
and then `sheet.update(values=data, range_name="A1", ...)` where
`data = [df.columns.tolist()] + df.values.tolist()`.  The worksheet is
modelled as a cell map from 0-based (row, column) to an optional value;
A1:Z100000 covers rows 0..99999 and columns 0..25. -/

/-- The destination worksheet's observable value state. -/
abbrev SheetState : Type := Nat → Nat → Option CellValue

/-- The value the uploaded grid places at 0-based (row, column), if any. -/
def gridCell (data : List (List CellValue)) (r c : Nat) : Option CellValue :=
  match data.get? r with
  | some row => row.get? c
  | none => none

/-- `sheet.batch_clear(["A1:Z100000"])` (line 291): every cell of the range
is emptied, cells outside it are untouched. -/
def batch_clear (s : SheetState) : SheetState :=
  fun r c => if r < 100000 ∧ c < 26 then none else s r c

/-- `sheet.update(values=data, range_name="A1", ...)` (lines 293-297): cells
covered by the grid take the grid's value, others are untouched. -/
def sheetUpdate (data : List (List CellValue)) (s : SheetState) : SheetState :=
  fun r c =>
    match gridCell data r c with
    | some v => some v
    | none => s r c

/-- The destination state after one successful upload attempt: clear the
bounded range, then write the grid at A1. -/
def upload_success (data : List (List CellValue)) (s : SheetState) : SheetState :=
  sheetUpdate data (batch_clear s)

/-! ## Helper lemmas -/

theorem pollLoop_append_done (pre : List StatusResponse) (docId : String)
    (post : List StatusResponse) (polls : Nat) (sleeps : List Nat)
    (h : ∀ r ∈ pre, isTerminal r.processingStatus = false) :
    pollLoop (pre ++ ⟨"DONE", docId⟩ :: post) polls sleeps
      = .retrieve docId (polls + pre.length + 1) (sleeps ++ List.replicate pre.length 10) := by
  induction pre generalizing polls sleeps with
  | nil => simp [pollLoop]
  | cons r rest ih =>
    have hr := h r (List.mem_cons_self r rest)
    have hrest : ∀ x ∈ rest, isTerminal x.processingStatus = false :=
      fun x hx => h x (List.mem_cons_of_mem r hx)
    simp only [isTerminal, Bool.or_eq_false_iff, decide_eq_false_iff_not] at hr
    obtain ⟨⟨h1, h2⟩, h3⟩ := hr
    simp only [List.cons_append, pollLoop, h1, h2, h3, if_false, or_self, ite_false,
      or_false, false_or]
    rw [List.append_eq, ih (polls + 1) (sleeps ++ [10]) hrest]
    simp [List.replicate_succ, List.append_assoc]
    omega

theorem terminated_pollLoop (script : List StatusResponse) (polls : Nat) (sleeps : List Nat) :
    terminated (pollLoop script polls sleeps)
      = script.any (fun r => isTerminal r.processingStatus) := by
  induction script generalizing polls sleeps with
  | nil => simp [pollLoop, terminated]
  | cons r rest ih =>
    by_cases h1 : r.processingStatus = "DONE"
    · simp [pollLoop, h1, terminated, isTerminal]
    · by_cases h2 : r.processingStatus = "FATAL" ∨ r.processingStatus = "CANCELLED"
      · rcases h2 with h2 | h2 <;>
          simp [pollLoop, h1, h2, terminated, isTerminal]
      · push_neg at h2
        obtain ⟨h2, h3⟩ := h2
        simp only [pollLoop, h1, ite_false, h2, h3, or_self, if_false, or_false, false_or]
        rw [ih]
        simp [isTerminal, h1, h2, h3]

theorem pollLoop_replicate (n : Nat) (d : String) (polls : Nat) (sleeps : List Nat) :
    pollLoop (List.replicate n ⟨"IN_PROGRESS", d⟩) polls sleeps
      = .running (polls + n) (sleeps ++ List.replicate n 10) := by
  induction n generalizing polls sleeps with
  | zero => simp [pollLoop]
  | succ k ih =>
    simp only [List.replicate_succ, pollLoop, ite_false, or_self, if_false,
      String.reduceEq, or_false, false_or]
    rw [ih]
    simp [List.replicate_succ, List.append_assoc]
    omega

theorem attemptsOf_uploadLoop_le (responses : Nat → SinkResponse)
    (fuel attempt : Nat) (sleeps : List Nat) :
    attemptsOf (uploadLoop responses fuel attempt sleeps) ≤ attempt + fuel := by
  induction fuel generalizing attempt sleeps with
  | zero => simp [uploadLoop, attemptsOf]
  | succ k ih =>
    simp only [uploadLoop]
    cases responses attempt with
    | ok => simp [attemptsOf]
    | apiError st =>
      by_cases h : st = some 503
      · simp only [h, if_true]
        have := ih (attempt + 1) (sleeps ++ [2 ^ attempt])
        omega
      · simp [h, attemptsOf]

theorem filter_find_of_nodup (right : List UnitsRow) (sku : String)
    (h : (right.map UnitsRow.sellerSku).Nodup) :
    (right.filter (fun r => r.sellerSku == sku) = []
        ∧ right.find? (fun r => r.sellerSku == sku) = none)
      ∨ ∃ u, right.find? (fun r => r.sellerSku == sku) = some u
        ∧ right.filter (fun r => r.sellerSku == sku) = [u] := by
  induction right with
  | nil => exact Or.inl ⟨rfl, rfl⟩
  | cons u rest ih =>
    simp only [List.map_cons, List.nodup_cons] at h
    obtain ⟨hu, hrest⟩ := h
    by_cases hsku : u.sellerSku = sku
    · refine Or.inr ⟨u, ?_, ?_⟩
      · simp [List.find?, hsku]
      · have hnil : rest.filter (fun r => r.sellerSku == sku) = [] := by
          rw [List.filter_eq_nil_iff]
          intro v hv hvsku
          apply hu
          rw [List.mem_map]
          refine ⟨v, hv, ?_⟩
          rw [beq_iff_eq] at hvsku
          rw [hvsku, hsku]
        simp [List.filter, hsku, hnil]
    · have hne : (u.sellerSku == sku) = false := by
        rw [beq_eq_false_iff_ne]; exact hsku
      rcases ih hrest with ⟨hfil, hfind⟩ | ⟨v, hfind, hfil⟩
      · refine Or.inl ⟨?_, ?_⟩
        · simp [List.filter, hne, hfil]
        · simp [List.find?, hne, hfind]
      · refine Or.inr ⟨v, ?_, ?_⟩
        · simp [List.find?, hne, hfind]
        · simp [List.filter, hne, hfil]

theorem matchRows_of_nodup (l : FbaRow) (right : List UnitsRow)
    (h : (right.map UnitsRow.sellerSku).Nodup) :
    (matchRows l right).map fillnaRow
      = [⟨l.sellerSku, l.asin, l.inventorySupplyAtFBA, l.reservedFcProcessing,
          l.reservedCustomerOrder, lookupUnits right l.sellerSku⟩] := by
  rcases filter_find_of_nodup right l.sellerSku h with ⟨hfil, hfind⟩ | ⟨u, hfind, hfil⟩
  · simp [matchRows, hfil, lookupUnits, hfind, mergeRow, fillnaRow]
  · simp [matchRows, hfil, lookupUnits, hfind, mergeRow, fillnaRow]

/-! ## Claims -/

/-- C2: for every scripted status sequence whose first terminal status is
DONE at position n = pre.length + 1, the poll loop issues exactly n status
polls with a 10-second sleep between consecutive polls (n - 1 sleeps) and
proceeds to document retrieval with the reported document id; for the
sequence [FATAL] it raises the report-failed error after exactly 1 poll and
no sleep. -/
theorem poll_cadence (pre post : List StatusResponse) (docId : String)
    (h : ∀ r ∈ pre, isTerminal r.processingStatus = false) :
    pollReportStatus (pre ++ ⟨"DONE", docId⟩ :: post)
        = .retrieve docId (pre.length + 1) (List.replicate pre.length 10)
      ∧ ∀ d, pollReportStatus [⟨"FATAL", d⟩] = .failed 1 [] := by
  constructor
  · have := pollLoop_append_done pre docId post 0 [] h
    simpa [pollReportStatus] using this
  · intro d
    simp [pollReportStatus, pollLoop]

/-- Witness for C2 at the spec's scripted sequence
[IN_PROGRESS, IN_PROGRESS, DONE]: 3 polls, two 10-second sleeps, then
retrieval; and [FATAL]: 1 poll, no sleep, report-failed. -/
theorem poll_cadence_witness :
    pollReportStatus
        [⟨"IN_PROGRESS", ""⟩, ⟨"IN_PROGRESS", ""⟩, ⟨"DONE", "doc-1"⟩]
        = .retrieve "doc-1" 3 [10, 10]
      ∧ pollReportStatus [⟨"FATAL", ""⟩] = .failed 1 [] := by
  have h := poll_cadence [⟨"IN_PROGRESS", ""⟩, ⟨"IN_PROGRESS", ""⟩] [] "doc-1"
    (by decide)
  exact ⟨h.1, h.2 ""⟩

/-- C5: the poll loop has no maximum attempt count or timeout: it reaches an
exit if and only if the scripted sequence contains a terminal status (DONE,
FATAL or CANCELLED); every other status value continues polling, and after n
non-terminal responses the loop has issued n polls and is still running. -/
theorem poll_unbounded :
    (∀ script : List StatusResponse,
        terminated (pollReportStatus script) = true
          ↔ ∃ r ∈ script, isTerminal r.processingStatus = true)
      ∧ ∀ (n : Nat) (d : String),
          pollReportStatus (List.replicate n ⟨"IN_PROGRESS", d⟩)
            = .running n (List.replicate n 10) := by
  constructor
  · intro script
    rw [pollReportStatus, terminated_pollLoop]
    simp [List.any_eq_true]
  · intro n d
    have := pollLoop_replicate n d 0 []
    simpa [pollReportStatus] using this

/-- C3: the sink writer retries only on a 503 status, sleeps 2 ^ attempt
seconds after each failed attempt (1s then 2s), and makes at most 5 attempts
in total: with two 503 responses followed by success it succeeds on the 3rd
attempt after waiting 1s then 2s, and with five consecutive 503 responses it
raises the retries-exhausted error after exactly 5 attempts, never making a
6th. -/
theorem sink_retry_policy :
    (∀ responses, attemptsOf (upload_to_sheet responses) ≤ MAX_GSPREAD_RETRIES)
      ∧ upload_to_sheet
            (fun n => if n < 2 then .apiError (some 503) else .ok)
          = .uploaded 3 [1, 2]
      ∧ upload_to_sheet (fun _ => .apiError (some 503))
          = .exhausted 5 [1, 2, 4, 8, 16] := by
  refine ⟨fun responses => ?_, ?_, ?_⟩
  · have := attemptsOf_uploadLoop_le responses MAX_GSPREAD_RETRIES 0 []
    simpa [upload_to_sheet] using this
  · decide
  · decide

/-- C8: on a destination error whose status is not 503 at the first attempt,
upload_to_sheet re-raises it immediately: one attempt, no sleep, no retry. -/
theorem sink_non503_aborts (responses : Nat → SinkResponse) (st : Option Nat)
    (h0 : responses 0 = .apiError st) (h503 : st ≠ some 503) :
    upload_to_sheet responses = .raised st 1 [] := by
  show uploadLoop responses 5 0 [] = .raised st 1 []
  rw [show (5 : Nat) = 4 + 1 from rfl]
  simp only [uploadLoop, h0]
  simp [h503]

/-- Witness for C8: a scripted 500 APIError at the first attempt is re-raised
with one attempt and no sleep. -/
theorem sink_non503_aborts_witness :
    upload_to_sheet (fun _ => .apiError (some 500)) = .raised (some 500) 1 [] :=
  sink_non503_aborts (fun _ => .apiError (some 500)) (some 500) rfl (by decide)

/-- C6: a successful sink write is idempotent -- clearing A1:Z100000 and
writing the grid twice with the same grid leaves the worksheet in the same
state as doing it once -- and, within the cleared bound, every cell not
covered by the new grid is empty afterwards, so a shorter upload leaves no
stale trailing rows. -/
theorem upload_idempotent (data : List (List CellValue)) (s : SheetState) :
    upload_success data (upload_success data s) = upload_success data s
      ∧ ∀ r c, r < 100000 → c < 26 → gridCell data r c = none →
          upload_success data s r c = none := by
  constructor
  · funext r c
    show sheetUpdate data (batch_clear (upload_success data s)) r c
      = sheetUpdate data (batch_clear s) r c
    unfold sheetUpdate batch_clear upload_success sheetUpdate batch_clear
    cases hg : gridCell data r c with
    | some v => simp [hg]
    | none =>
      by_cases hrange : r < 100000 ∧ c < 26
      · simp [hg, hrange]
      · simp [hg, hrange]
  · intro r c hr hc hg
    show sheetUpdate data (batch_clear s) r c = none
    unfold sheetUpdate batch_clear
    simp [hg, hr, hc]

/-- Witness for C6: a two-row grid uploaded over a worksheet holding an old
value at row 4: re-uploading changes nothing and the old cell, inside the
cleared bound and outside the grid, is empty. -/
theorem upload_idempotent_witness :
    upload_success [[CellValue.str "h"], [CellValue.num 1]]
        (upload_success [[CellValue.str "h"], [CellValue.num 1]]
          (fun r c => if r = 3 ∧ c = 0 then some (CellValue.num 7) else none))
      = upload_success [[CellValue.str "h"], [CellValue.num 1]]
          (fun r c => if r = 3 ∧ c = 0 then some (CellValue.num 7) else none)
      ∧ upload_success [[CellValue.str "h"], [CellValue.num 1]]
          (fun r c => if r = 3 ∧ c = 0 then some (CellValue.num 7) else none)
          3 0 = none := by
  have h := upload_idempotent [[CellValue.str "h"], [CellValue.num 1]]
    (fun r c => if r = 3 ∧ c = 0 then some (CellValue.num 7) else none)
  exact ⟨h.1, h.2 3 0 (by decide) (by decide) rfl⟩

/-- C10: after the clean step every cell of every uploaded frame is free of
NaN and infinities: each non-finite sentinel is replaced by the empty string,
so each uploaded cell is a finite value or the empty string. -/
theorem clean_no_nonfinite (frame : List (List CellValue))
    (row : List CellValue) (c : CellValue)
    (hrow : row ∈ cleanFrame frame) (hc : c ∈ row) :
    isFiniteCell c = true
      ∧ cleanCell .nan = .str "" ∧ cleanCell .inf = .str ""
      ∧ cleanCell .neginf = .str "" := by
  refine ⟨?_, rfl, rfl, rfl⟩
  simp only [cleanFrame] at hrow
  rcases List.mem_map.mp hrow with ⟨row0, _, hmap⟩
  rw [← hmap] at hc
  rcases List.mem_map.mp hc with ⟨c0, _, hcell⟩
  rw [← hcell]
  cases c0 <;> rfl

/-- Witness for C10: cleaning the one-cell frame [[NaN]] yields [[""]] whose
only cell is finite. -/
theorem clean_no_nonfinite_witness :
    isFiniteCell (CellValue.str "") = true
      ∧ cleanCell .nan = .str "" ∧ cleanCell .inf = .str ""
      ∧ cleanCell .neginf = .str "" :=
  clean_no_nonfinite [[CellValue.nan]] [CellValue.str ""] (CellValue.str "")
    (by decide) (by decide)

/-- C9: the merge preserves every left-side key and drops report-only keys:
when the report's SKUs are distinct, the merged and filled output is exactly
the summary rows, each extended with the report's shipped-units value for its
SKU when present and 0 otherwise; no row for a report-only SKU exists. -/
theorem merge_left_join_semantics (left : List FbaRow) (right : List UnitsRow)
    (h : (right.map UnitsRow.sellerSku).Nodup) :
    pipelineMerge left right
      = left.map (fun l =>
          ⟨l.sellerSku, l.asin, l.inventorySupplyAtFBA, l.reservedFcProcessing,
           l.reservedCustomerOrder, lookupUnits right l.sellerSku⟩) := by
  induction left with
  | nil => rfl
  | cons l ls ih =>
    simp only [pipelineMerge, leftMerge, List.flatMap_cons, List.map_append,
      List.map_cons]
    rw [matchRows_of_nodup l right h]
    simp only [pipelineMerge, leftMerge] at ih
    rw [ih]
    rfl

/-- Witness for C9: two summary rows, one matched by the report (11 units)
and one absent from it (filled with 0); the report's rows have distinct
SKUs. -/
theorem merge_left_join_semantics_witness :
    pipelineMerge [⟨"S1", "A9", 4, 0, 1⟩, ⟨"S2", "B2", 7, 2, 3⟩]
        [⟨"S2", 11⟩]
      = [⟨"S1", "A9", 4, 0, 1, 0⟩, ⟨"S2", "B2", 7, 2, 3, 11⟩] := by
  have h := merge_left_join_semantics
    [⟨"S1", "A9", 4, 0, 1⟩, ⟨"S2", "B2", 7, 2, 3⟩] [⟨"S2", 11⟩] (by decide)
  rw [h]
  decide

/-- C1 counterexample: in the spec's end-to-end scenario the code merges with
`how="left"`, not a full-outer join: SKU X2 occurs in the report input, yet
the merged output has exactly one record and no row for X2, so a key present
only in the right input does not appear and the output does not contain two
records. -/
theorem merge_not_full_outer :
    ("X2" ∈ ([⟨"X1", 50⟩, ⟨"X2", 3⟩] : List UnitsRow).map UnitsRow.sellerSku)
      ∧ (pipelineMerge [⟨"X1", "A1", 8, 1, 2⟩] [⟨"X1", 50⟩, ⟨"X2", 3⟩]).length = 1
      ∧ (pipelineMerge [⟨"X1", "A1", 8, 1, 2⟩] [⟨"X1", 50⟩, ⟨"X2", 3⟩]).all
          (fun m => m.sellerSku != "X2") = true := by
  decide

/-- C1 amended: the merge of the summary record set with the report record
set on the SKU key is a left join: every summary-side SKU appears, a
report-only SKU is dropped, and in the spec's end-to-end scenario (B has
only X1, the report has X1 and X2) the output is the single record X1 with
all B fields and shipped30 = 50. -/
theorem merge_scenario_left_join :
    pipelineMerge [⟨"X1", "A1", 8, 1, 2⟩] [⟨"X1", 50⟩, ⟨"X2", 3⟩]
      = [⟨"X1", "A1", 8, 1, 2, 50⟩] := by
  decide

/-- C4 counterexample: numeric extraction does not parse: a present
unparsable string value for fulfillableQuantity is stored unchanged as the
string "abc" rather than being coerced to an integer, so the result of
coercing an unparsable string input is not an integer. -/
theorem coercion_not_parsing :
    extractFbaRecord
        [("sellerSku", .str "S1"),
         ("inventoryDetails", .obj [("fulfillableQuantity", .str "abc")])]
      = .ok ⟨.str "S1", .str "", .str "abc", .num 0, .num 0⟩
      ∧ (JsonValue.str "abc").isInt = false :=
  ⟨rfl, rfl⟩

/-- C4 amended: extraction is total on dict-shaped payloads and never fails
the run: whenever the two nested accesses see dicts, extraction succeeds; an
absent numeric field defaults to 0 and absent string fields (sellerSku,
asin) default to the empty string, never null; a present value is stored
unchanged without parsing or truncation. -/
theorem extraction_total_defaults
    (item invFields resFields : List (String × JsonValue))
    (hinv : fieldOr item "inventoryDetails" (.obj []) = .obj invFields)
    (hres : fieldOr invFields "reservedQuantity" (.obj []) = .obj resFields)
    (hsku : item.find? (fun p => p.1 == "sellerSku") = none)
    (hasin : item.find? (fun p => p.1 == "asin") = none)
    (hful : invFields.find? (fun p => p.1 == "fulfillableQuantity") = none)
    (hfc : resFields.find? (fun p => p.1 == "fcProcessingQuantity") = none)
    (hco : resFields.find? (fun p => p.1 == "customerOrderQuantity") = none) :
    extractFbaRecord item = .ok ⟨.str "", .str "", .num 0, .num 0, .num 0⟩ := by
  rw [extractFbaRecord, hinv]
  simp only [asObj, hres]
  simp only [fieldOr, hsku, hasin, hful, hfc, hco]

/-- Witness for C4: extracting the empty item succeeds with every field at
its default. -/
theorem extraction_total_defaults_witness :
    extractFbaRecord [] = .ok ⟨.str "", .str "", .num 0, .num 0, .num 0⟩ :=
  extraction_total_defaults [] [] [] rfl rfl rfl rfl rfl rfl rfl

/-- C7 counterexample: the code applies the gzip decode unconditionally, so a
plain uncompressed payload is not handled: gunzipDecode fails on it with
BadGzipFile, while the spec's transparent decode of the same payload yields
the text. -/
theorem gunzip_not_transparent :
    gunzipDecode (.plain "sku\tunits") = .error "BadGzipFile"
      ∧ transparentDecodeSpec (.plain "sku\tunits") = .ok "sku\tunits" :=
  ⟨rfl, rfl⟩

/-- C7 amended: document retrieval decompresses gzip-framed payloads: for
every gzip-framed payload the decode step yields the decoded UTF-8
tab-separated text; a plain uncompressed payload is not transparently
handled but raises BadGzipFile. -/
theorem gunzip_gzip_only :
    (∀ t, gunzipDecode (.gzipFramed t) = .ok t)
      ∧ ∀ t, gunzipDecode (.plain t) = .error "BadGzipFile" :=
  ⟨fun _ => rfl, fun _ => rfl⟩

end AwdReport
